import Mathlib

/-!
# Verification of the vicinity-map label-placement and export pipeline

Shallow embedding of the core logic of the `vicinity-map` repository:
coordinate transforms (`src/utils/coordinateTransforms.ts`), the road data
model (`src/types/index.ts`), the editor reducer
(`src/context/EditorContext.tsx`), the label angle calculator
(`src/utils/roadUtils.ts`), and the three renderer backends: the interactive
preview (`RoadLabels` / `RoadPaths`), the SVG exporter
(`src/features/export/svgExport.ts`) and the DXF exporter
(`src/features/export/dxfExport/index.ts`).

Modelling conventions:
* JS `number` arithmetic on coordinates is modelled by exact rational
  arithmetic (`ℚ`); angle computation, which goes through `Math.atan2`, is
  modelled over `ℝ` using `Complex.arg` (`Math.atan2 y x = Complex.arg (x+iy)`,
  including `atan2 0 0 = 0`).
* JS string falsiness: the `type`, `name` and `featureType` fields are
  `String`s with `""` playing the role of a missing/empty (falsy) value,
  exactly matching how `road.type || 'unclassified'` and filters such as
  `road.name && …` treat `undefined` and `''` identically.
* `road.labelOffset?.[0] || 0`, `road.fontSize || 10` etc. are modelled on
  `Option` fields with the JS falsy-default semantics (`0` is falsy).
* `road.svgPoints || road.points`: `svgPoints` is a required array field of
  the `Road` interface and a JS array (even `[]`) is truthy, so the `||`
  never falls through; the model therefore reads `svgPoints` directly.
* The dedup test `Math.sqrt(dx*dx+dy*dy) < 150` is modelled by the
  equivalent decidable test `dx*dx+dy*dy < 150*150`; the lemma
  `sqrt_lt_iff_sq_lt` proves this transcription exact.
-/

namespace VicinityMap

/-- A 2D point in drawing (SVG) space; also used for geographic lon/lat pairs. -/
abbrev Point := ℚ × ℚ

/-- The geographic bounding box handed to the coordinate transforms
(`L.LatLngBounds`, read through `getWest/getSouth/getEast/getNorth`). -/
structure Bounds where
  west : ℚ
  south : ℚ
  east : ℚ
  north : ℚ
deriving DecidableEq, Repr

/-- Function `transformToSVGCoords` from `src/utils/coordinateTransforms.ts`
(exact-arithmetic reading of the JS float computation). -/
def transformToSVGCoords (point : Point) (bounds : Bounds)
    (svgWidth svgHeight : ℚ) : Point :=
  let boundWidth := bounds.east - bounds.west
  let boundHeight := bounds.north - bounds.south
  let scaleX := svgWidth / boundWidth
  let scaleY := svgHeight / boundHeight
  ((point.1 - bounds.west) * scaleX,
   svgHeight - ((point.2 - bounds.south) * scaleY))

/-- Function `transformToGeoCoords` from `src/utils/coordinateTransforms.ts`
(exact-arithmetic reading of the JS float computation). -/
def transformToGeoCoords (point : Point) (bounds : Bounds)
    (svgWidth svgHeight : ℚ) : Point :=
  let boundWidth := bounds.east - bounds.west
  let boundHeight := bounds.north - bounds.south
  let scaleX := svgWidth / boundWidth
  let scaleY := svgHeight / boundHeight
  (point.1 / scaleX + bounds.west,
   bounds.south + (svgHeight - point.2) / scaleY)

/-- The `Road` interface from `src/types/index.ts`.  String fields use `""`
for a missing (JS-falsy) value; optional fields are `Option`s. -/
structure Road where
  id : String
  name : String
  type : String
  featureType : String
  visible : Bool
  showName : Bool
  points : List Point
  svgPoints : List Point
  labelOffset : Option Point
  fontSize : Option ℚ
  customAngle : Option ℚ
deriving DecidableEq, Repr

/-- Source expression `road.labelOffset?.[0] || 0`. -/
def offsetX (r : Road) : ℚ := (r.labelOffset.map Prod.fst).getD 0

/-- Source expression `road.labelOffset?.[1] || 0`. -/
def offsetY (r : Road) : ℚ := (r.labelOffset.map Prod.snd).getD 0

/-- Source expression `road.fontSize || 10` (JS `||` also replaces a stored `0` by the default). -/
def fontSizeOf (r : Road) : ℚ :=
  match r.fontSize with
  | none => 10
  | some v => if v = 0 then 10 else v

/-- The `typeOrder` table of the label sort comparator together with the
`|| 8` fallback for types outside the table. -/
def typeOrder (t : String) : ℕ :=
  if t = "motorway" then 1
  else if t = "trunk" then 2
  else if t = "primary" then 3
  else if t = "secondary" then 4
  else if t = "tertiary" then 5
  else if t = "residential" then 6
  else if t = "unclassified" then 7
  else 8

/-- Source expression `typeOrder[road.type || 'unclassified'] || 8`: priority rank of a road. -/
def roadRank (r : Road) : ℕ :=
  typeOrder (if r.type = "" then "unclassified" else r.type)

/-- The SVG label sort comparator (`src/features/export/svgExport.ts`):
primary key `typeOrder` rank ascending, secondary key `points.length`
descending.  `svgLabelBefore a b` holds exactly when the JS comparator
returns `≤ 0` on `(a, b)`; JS `Array.prototype.sort` is a stable sort, which
`List.insertionSort` with this relation models. -/
def svgLabelBefore (a b : Road) : Prop :=
  roadRank a < roadRank b ∨
    (roadRank a = roadRank b ∧ b.points.length ≤ a.points.length)

/-- The DXF label sort comparator (`dxfExport/index.ts`); identical to the
SVG one except that the secondary key reads `svgPoints.length`. -/
def dxfLabelBefore (a b : Road) : Prop :=
  roadRank a < roadRank b ∨
    (roadRank a = roadRank b ∧ b.svgPoints.length ≤ a.svgPoints.length)

instance : DecidableRel svgLabelBefore := fun a b =>
  inferInstanceAs (Decidable (_ ∨ _))

instance : DecidableRel dxfLabelBefore := fun a b =>
  inferInstanceAs (Decidable (_ ∨ _))

instance : IsTotal Road svgLabelBefore :=
  ⟨fun a b => by
    unfold svgLabelBefore
    rcases lt_trichotomy (roadRank a) (roadRank b) with h | h | h
    · exact Or.inl (Or.inl h)
    · rcases le_total b.points.length a.points.length with h2 | h2
      · exact Or.inl (Or.inr ⟨h, h2⟩)
      · exact Or.inr (Or.inr ⟨h.symm, h2⟩)
    · exact Or.inr (Or.inl h)⟩

instance : IsTrans Road svgLabelBefore :=
  ⟨fun a b c hab hbc => by
    unfold svgLabelBefore at *
    rcases hab with h1 | ⟨h1, h1'⟩ <;> rcases hbc with h2 | ⟨h2, h2'⟩
    · exact Or.inl (h1.trans h2)
    · exact Or.inl (h2 ▸ h1)
    · exact Or.inl (h1 ▸ h2)
    · exact Or.inr ⟨h1.trans h2, h2'.trans h1'⟩⟩

instance : IsTotal Road dxfLabelBefore :=
  ⟨fun a b => by
    unfold dxfLabelBefore
    rcases lt_trichotomy (roadRank a) (roadRank b) with h | h | h
    · exact Or.inl (Or.inl h)
    · rcases le_total b.svgPoints.length a.svgPoints.length with h2 | h2
      · exact Or.inl (Or.inr ⟨h, h2⟩)
      · exact Or.inr (Or.inr ⟨h.symm, h2⟩)
    · exact Or.inr (Or.inl h)⟩

instance : IsTrans Road dxfLabelBefore :=
  ⟨fun a b c hab hbc => by
    unfold dxfLabelBefore at *
    rcases hab with h1 | ⟨h1, h1'⟩ <;> rcases hbc with h2 | ⟨h2, h2'⟩
    · exact Or.inl (h1.trans h2)
    · exact Or.inl (h2 ▸ h1)
    · exact Or.inl (h1 ▸ h2)
    · exact Or.inr ⟨h1.trans h2, h2'.trans h1'⟩⟩

/-- Source expression `points[Math.floor(points.length / 2)]` — the midpoint sample used as a
label anchor (the default is never read on a nonempty list). -/
def midAnchor (pts : List Point) : Point := pts.getD (pts.length / 2) (0, 0)

/-- The drawing-space label position of the SVG exporter and the interactive
preview: midpoint sample plus the user offset. -/
def svgLabelPos (r : Road) : Point :=
  ((midAnchor r.svgPoints).1 + offsetX r, (midAnchor r.svgPoints).2 + offsetY r)

/-- Mirror a point about the horizontal line `y = midY`
(`[p[0], 2 * midY - p[1]]` in `dxfExport/index.ts`). -/
def flipPoint (midY : ℚ) (p : Point) : Point := (p.1, 2 * midY - p.2)

/-- The DXF label position: `[midPoint[0] + offsetX, flippedY - offsetY]`
with `flippedY = 2 * midY - midPoint[1]`. -/
def dxfLabelPos (midY : ℚ) (r : Road) : Point :=
  ((midAnchor r.svgPoints).1 + offsetX r,
   (2 * midY - (midAnchor r.svgPoints).2) - offsetY r)

/-- Source expression `hasCustomPosition = offsetX !== 0 || offsetY !== 0`. -/
def hasCustomPosition (r : Road) : Prop := offsetX r ≠ 0 ∨ offsetY r ≠ 0

instance : DecidablePred hasCustomPosition := fun r =>
  inferInstanceAs (Decidable (_ ∨ _))

/-- The `drawnLabels` registry (`Map<string, Array<[number, number]>>`),
flattened into a list of (name, registered position) pairs. -/
abbrev Registry := List (String × Point)

/-- Squared Euclidean distance.  The source compares
`Math.sqrt(dx*dx + dy*dy) < MIN_LABEL_DISTANCE`; the equivalent squared test
keeps the predicate decidable over `ℚ` (see `sqrt_lt_iff_sq_lt`). -/
def distSq (p q : Point) : ℚ := (p.1 - q.1) ^ 2 + (p.2 - q.2) ^ 2

/-- Source test `existingPositions.some(pos => distance(labelPos, pos) < 150)` for the
given name, over the flattened registry. -/
def isTooClose (reg : Registry) (name : String) (pos : Point) : Bool :=
  reg.any (fun e => e.1 == name && decide (distSq e.2 pos < 22500))

/-- The label-dedup loop body shared verbatim (up to the label-position
formula `posOf`) by the SVG and DXF exporters, processing roads in sorted
order while threading the `drawnLabels` registry: a road with empty
`svgPoints` is skipped (`points.length === 0`); a custom-positioned label is
always emitted and never registered; otherwise the label is emitted and its
position registered unless a same-named registered position lies within 150
units of it. -/
def labelAux (posOf : Road → Point) :
    List Road → Registry → List (Road × Point) × Registry
  | [], reg => ([], reg)
  | r :: rest, reg =>
    if r.svgPoints.length = 0 then labelAux posOf rest reg
    else
      if hasCustomPosition r then
        ((r, posOf r) :: (labelAux posOf rest reg).1, (labelAux posOf rest reg).2)
      else if isTooClose reg r.name (posOf r) then labelAux posOf rest reg
      else
        ((r, posOf r) :: (labelAux posOf rest ((r.name, posOf r) :: reg)).1,
         (labelAux posOf rest ((r.name, posOf r) :: reg)).2)

/-- The label loop of the SVG exporter (second pass), with drawing-space
positions. -/
def svgLabelAux : List Road → Registry → List (Road × Point) × Registry :=
  labelAux svgLabelPos

/-- The label loop of the DXF exporter (`dxfExport/index.ts` lines 178-261):
identical to the SVG loop except that positions are Y-mirrored about `midY`
before the proximity check and registration. -/
def dxfLabelAux (midY : ℚ) : List Road → Registry → List (Road × Point) × Registry :=
  labelAux (dxfLabelPos midY)

/-- Source expression `roads.filter(road => road.name && (road.showName !== false)).sort(...)`
from the SVG exporter.  Note: no `visible` check. -/
def svgSortedNamedRoads (roads : List Road) : List Road :=
  List.insertionSort svgLabelBefore
    (roads.filter fun r => (r.name != "") && r.showName)

/-- Source expression `roads.filter(road => road.visible && road.showName && road.name).sort(...)`
from the DXF exporter. -/
def dxfSortedNamedRoads (roads : List Road) : List Road :=
  List.insertionSort dxfLabelBefore
    (roads.filter fun r => r.visible && r.showName && (r.name != ""))

/-- The labels emitted by the SVG exporter (road, anchor position). -/
def svgRoadLabels (roads : List Road) : List (Road × Point) :=
  (svgLabelAux (svgSortedNamedRoads roads) []).1

/-- The labels emitted by the DXF exporter (road, mirrored anchor position). -/
def dxfRoadLabels (midY : ℚ) (roads : List Road) : List (Road × Point) :=
  (dxfLabelAux midY (dxfSortedNamedRoads roads) []).1

/-- The labels of the interactive preview (`RoadLabels`): one `<text>` per
visible road with `showName`, a nonempty name and nonempty `svgPoints`; no
deduplication of any kind. -/
def previewLabels (roads : List Road) : List (Road × Point) :=
  roads.filterMap fun r =>
    if r.visible && r.showName && (r.name != "") && !r.svgPoints.isEmpty
    then some (r, svgLabelPos r) else none

/-- The first (path) pass of the SVG exporter: one `<path>` element per road
with nonempty `svgPoints`.  Crucially there is no `visible` check. -/
def svgPathRoads (roads : List Road) : List Road :=
  roads.filter fun r => !r.svgPoints.isEmpty

/-- The path pass of the interactive preview (`RoadPaths`): only visible
roads are rendered. -/
def previewPathRoads (roads : List Road) : List Road :=
  roads.filter fun r => r.visible

/-- Consecutive point pairs of a polyline. -/
def segmentsOf : List Point → List (Point × Point)
  | [] => []
  | [_] => []
  | p :: q :: rest => (p, q) :: segmentsOf (q :: rest)

/-- The roads that contribute LINE entities (and the bounding box) in the DXF
exporter: `road.visible && road.svgPoints.length >= 2`. -/
def dxfLineRoads (roads : List Road) : List Road :=
  roads.filter fun r => r.visible && decide (2 ≤ r.svgPoints.length)

/-- The Y-mirrored segments the DXF exporter emits for one road. -/
def dxfFlippedSegments (midY : ℚ) (r : Road) : List (Point × Point) :=
  (segmentsOf r.svgPoints).map fun s => (flipPoint midY s.1, flipPoint midY s.2)

/-- All Y coordinates entering the DXF bounding-box pass. -/
def dxfBBoxYs (roads : List Road) : List ℚ :=
  (dxfLineRoads roads).flatMap fun r => r.svgPoints.map Prod.snd

/-- Midline `midY = (minY + maxY) / 2` of the DXF exporter.  When no visible road has
two or more points the JS code computes `(Infinity + -Infinity) / 2 = NaN`;
the model returns `0` in that case and theorems about `midY` assume the
bounding box is nonempty. -/
def dxfMidY (roads : List Road) : ℚ :=
  match dxfBBoxYs roads with
  | [] => 0
  | y :: ys => (ys.foldl min y + ys.foldl max y) / 2

/-- The `StandaloneLabel` interface from `src/types/index.ts`. -/
structure StandaloneLabel where
  id : String
  text : String
  position : Point
  fontSize : Option ℚ
  angle : Option ℚ
  visible : Bool
deriving DecidableEq, Repr

/-- Source expression `label.angle || 0`. -/
def standaloneAngle (l : StandaloneLabel) : ℚ := l.angle.getD 0

/-- Standalone `<text>` elements of the SVG exporter: every visible label,
unconditionally (never part of the dedup pass); (position, rotation). -/
def svgStandaloneTexts (labels : List StandaloneLabel) : List (Point × ℚ) :=
  labels.filterMap fun l =>
    if l.visible then some (l.position, standaloneAngle l) else none

/-- Standalone TEXT entities of the DXF exporter: Y-mirrored position and
negated rotation (`rotation: -(label.angle || 0)`). -/
def dxfStandaloneTexts (midY : ℚ) (labels : List StandaloneLabel) : List (Point × ℚ) :=
  labels.filterMap fun l =>
    if l.visible then
      some ((l.position.1, 2 * midY - l.position.2), -(standaloneAngle l)) else none

/-- The `UPDATE_ROAD_FONT_SIZE` branch of `editorReducer`
(`src/context/EditorContext.tsx` lines 108-119). -/
def updateRoadFontSize (roads : List Road) (i : String) (delta : ℚ) : List Road :=
  roads.map fun road =>
    if road.id = i then
      { road with fontSize := some (max 6 (min 20 (fontSizeOf road + delta))) }
    else road

/-! ### Angle computation (`Math.atan2` modelled over `ℝ` via `Complex.arg`) -/

/-- Model of `Math.atan2(y, x) * (180 / Math.PI)`: the JS two-argument arctangent in
degrees, i.e. the argument of the complex number `x + iy`, in `(-180, 180]`
(`Math.atan2(0, 0) = 0 = Complex.arg 0`). -/
noncomputable def atan2deg (y x : ℚ) : ℝ :=
  Complex.arg ((x : ℝ) + (y : ℝ) * Complex.I) * 180 / Real.pi

open Classical in
/-- Source statement `if (angle > 90 || angle < -90) angle += 180` — the "not upside-down"
adjustment applied to a freshly computed tangent angle. -/
noncomputable def normalizeAngle (a : ℝ) : ℝ :=
  if 90 < a ∨ a < -90 then a + 180 else a

/-- The raw tangent angle around the midpoint sample:
`p1 = points[max(0, mid - s)]`, `p2 = points[min(n-1, mid + s)]` with
`s = min(3, floor(n/10))`, then `atan2(p2.y - p1.y, p2.x - p1.x)` in degrees.
(`ℕ` subtraction truncates at `0`, exactly `Math.max(0, …)`.) -/
noncomputable def rawTangentAngle (points : List Point) : ℝ :=
  let midPointIndex := points.length / 2
  let span := min 3 (points.length / 10)
  let p1 := points.getD (midPointIndex - span) (0, 0)
  let p2 := points.getD (min (points.length - 1) (midPointIndex + span)) (0, 0)
  atan2deg (p2.2 - p1.2) (p2.1 - p1.1)

/-- Function `getCalculatedAngle` from `src/utils/roadUtils.ts`. -/
noncomputable def getCalculatedAngle (points : List Point) : ℝ :=
  if points.length ≤ 1 then 0
  else normalizeAngle (rawTangentAngle points)

/-- The rotation of a road label in the SVG exporter and the interactive
preview: `customAngle` if defined, else `getCalculatedAngle(points)`. -/
noncomputable def svgLabelAngle (r : Road) : ℝ :=
  match r.customAngle with
  | some a => (a : ℝ)
  | none => getCalculatedAngle r.svgPoints

/-- The rotation of a road label in the DXF exporter
(`dxfExport/index.ts` lines 200-225): a custom angle is negated; otherwise
the tangent angle is computed on the unflipped `svgPoints`, negated
("Invert angle since Y is flipped"), and only then normalized; with fewer
than two points the angle stays `0`. -/
noncomputable def dxfLabelAngle (r : Road) : ℝ :=
  match r.customAngle with
  | some a => -(a : ℝ)
  | none =>
    if 1 < r.svgPoints.length then normalizeAngle (-(rawTangentAngle r.svgPoints))
    else 0

/-! ### JS float semantics of the coordinate transforms (for degenerate
bounds).  `JSNum` models the IEEE values reachable from finite inputs:
finite numbers, the two infinities, and NaN; `-0` is identified with `0`,
which is observationally irrelevant here. -/

/-- A JS `number` reachable in the transform computations. -/
inductive JSNum where
  | fin (q : ℚ)
  | inf
  | ninf
  | nan
deriving DecidableEq, Repr

namespace JSNum

/-- JS addition on the reachable values. -/
def add : JSNum → JSNum → JSNum
  | fin a, fin b => fin (a + b)
  | fin _, inf => inf
  | fin _, ninf => ninf
  | inf, fin _ => inf
  | ninf, fin _ => ninf
  | inf, inf => inf
  | ninf, ninf => ninf
  | inf, ninf => nan
  | ninf, inf => nan
  | _, _ => nan

/-- JS subtraction on the reachable values. -/
def sub : JSNum → JSNum → JSNum
  | fin a, fin b => fin (a - b)
  | fin _, inf => ninf
  | fin _, ninf => inf
  | inf, fin _ => inf
  | ninf, fin _ => ninf
  | inf, ninf => inf
  | ninf, inf => ninf
  | inf, inf => nan
  | ninf, ninf => nan
  | _, _ => nan

/-- JS multiplication on the reachable values (`0 * ±Infinity = NaN`). -/
def mul : JSNum → JSNum → JSNum
  | fin a, fin b => fin (a * b)
  | fin a, inf => if 0 < a then inf else if a < 0 then ninf else nan
  | fin a, ninf => if 0 < a then ninf else if a < 0 then inf else nan
  | inf, fin b => if 0 < b then inf else if b < 0 then ninf else nan
  | ninf, fin b => if 0 < b then ninf else if b < 0 then inf else nan
  | inf, inf => inf
  | ninf, ninf => inf
  | inf, ninf => ninf
  | ninf, inf => ninf
  | _, _ => nan

/-- JS division on the reachable values: `a / 0` is `±Infinity` for `a ≠ 0`
and `0 / 0 = NaN`; a finite number divided by an infinity is `0`. -/
def div : JSNum → JSNum → JSNum
  | fin a, fin b =>
    if b = 0 then (if 0 < a then inf else if a < 0 then ninf else nan)
    else fin (a / b)
  | fin _, inf => fin 0
  | fin _, ninf => fin 0
  | inf, fin b => if 0 ≤ b then inf else ninf
  | ninf, fin b => if 0 ≤ b then ninf else inf
  | inf, inf => nan
  | inf, ninf => nan
  | ninf, inf => nan
  | ninf, ninf => nan
  | _, _ => nan

/-- Predicate `Number.isFinite`. -/
def isFinite : JSNum → Bool
  | fin _ => true
  | _ => false

end JSNum

/-- Function `transformToSVGCoords` under JS float semantics: differences of the
finite inputs are exact, the interesting behaviour is the division by
`boundWidth`/`boundHeight` and the subsequent multiplications. -/
def transformToSVGCoordsJS (point : Point) (bounds : Bounds)
    (svgWidth svgHeight : ℚ) : JSNum × JSNum :=
  let scaleX := (JSNum.fin svgWidth).div (.fin (bounds.east - bounds.west))
  let scaleY := (JSNum.fin svgHeight).div (.fin (bounds.north - bounds.south))
  ((JSNum.fin (point.1 - bounds.west)).mul scaleX,
   (JSNum.fin svgHeight).sub ((JSNum.fin (point.2 - bounds.south)).mul scaleY))

/-- Function `transformToGeoCoords` under JS float semantics. -/
def transformToGeoCoordsJS (point : Point) (bounds : Bounds)
    (svgWidth svgHeight : ℚ) : JSNum × JSNum :=
  let scaleX := (JSNum.fin svgWidth).div (.fin (bounds.east - bounds.west))
  let scaleY := (JSNum.fin svgHeight).div (.fin (bounds.north - bounds.south))
  (((JSNum.fin point.1).div scaleX).add (.fin bounds.west),
   (JSNum.fin bounds.south).add (((JSNum.fin (svgHeight - point.2))).div scaleY))

/-! ### Railway expansion of the DXF exporter (over `ℝ`, since it divides by
`Math.sqrt(dx*dx + dy*dy)`) -/

/-- A point of the railway expansion (real coordinates). -/
abbrev RPoint := ℝ × ℝ

/-- Y-mirror over `ℝ`. -/
def flipR (m : ℝ) (p : RPoint) : RPoint := (p.1, 2 * m - p.2)

/-- Length `Math.sqrt(dx*dx + dy*dy)` of a segment. -/
noncomputable def segLength (p1 p2 : RPoint) : ℝ :=
  Real.sqrt ((p2.1 - p1.1) ^ 2 + (p2.2 - p1.2) ^ 2)

/-- The endpoints emitted for one railway segment, given the perpendicular
offset `(ox, oy)` and the tie count `n`: two parallel rails and, when
`n > 0`, `n + 1` cross-ties at parameters `i / n` along the segment. -/
noncomputable def railPointsAux (p1 p2 : RPoint) (ox oy : ℝ) (n : ℕ) : List RPoint :=
  [(p1.1 + ox, p1.2 + oy), (p2.1 + ox, p2.2 + oy),
   (p1.1 - ox, p1.2 - oy), (p2.1 - ox, p2.2 - oy)] ++
  (if 0 < n then
    (List.range (n + 1)).flatMap fun i =>
      [(p1.1 + (i : ℝ) / (n : ℝ) * (p2.1 - p1.1) + ox * 1.2,
        p1.2 + (i : ℝ) / (n : ℝ) * (p2.2 - p1.2) + oy * 1.2),
       (p1.1 + (i : ℝ) / (n : ℝ) * (p2.1 - p1.1) - ox * 1.2,
        p1.2 + (i : ℝ) / (n : ℝ) * (p2.2 - p1.2) - oy * 1.2)]
  else [])

open Classical in
/-- All endpoints of the LINE entities `addRailwaySegment` emits for one
segment (`dxfExport/index.ts` lines 53-98): nothing for segments shorter
than `0.001`; otherwise rails offset by `2 * (dy, -dx) / length` and ties
every `length / 15`. -/
noncomputable def railPoints (p1 p2 : RPoint) : List RPoint :=
  if segLength p1 p2 < 1 / 1000 then []
  else
    railPointsAux p1 p2
      ((p2.2 - p1.2) / segLength p1 p2 * 2)
      (-((p2.1 - p1.1) / segLength p1 p2) * 2)
      (⌊segLength p1 p2 / 15⌋.toNat)

/-! ### Concrete sample data for witnesses and counterexamples -/

/-- A 5-point residential road named "Main St" (anchor `(20, 0)`). -/
def sampleRes : Road :=
  ⟨"res", "Main St", "residential", "", true, true,
    [(0, 0), (10, 0), (20, 0), (30, 0), (40, 0)],
    [(0, 0), (10, 0), (20, 0), (30, 0), (40, 0)], none, none, none⟩

/-- A 2-point motorway named "Main St" (anchor `(10, 50)`), within 150 units
of `sampleRes`'s anchor. -/
def sampleMot : Road :=
  ⟨"mot", "Main St", "motorway", "", true, true,
    [(0, 50), (10, 50)], [(0, 50), (10, 50)], none, none, none⟩

/-- A road with a custom label offset `(30, -40)`. -/
def sampleCustom : Road :=
  ⟨"cus", "Main St", "residential", "", true, true,
    [(0, 0), (10, 0)], [(0, 0), (10, 0)], some (30, -40), none, none⟩

/-- An invisible named road with nonempty geometry. -/
def sampleHidden : Road :=
  ⟨"hid", "Hidden St", "residential", "", false, true,
    [(0, 0), (10, 0), (20, 0)], [(0, 0), (10, 0), (20, 0)], none, none, none⟩

/-- A 10-point polyline heading in the `-x` direction: the tangent sample
points are `p1 = (6, 0)`, `p2 = (4, 0)`, so the raw angle is `180°`. -/
def sampleLeftward : List Point :=
  [(10, 0), (9, 0), (8, 0), (7, 0), (6, 0), (5, 0), (4, 0), (3, 0), (2, 0), (1, 0)]

/-- A 10-point polyline heading straight down in `-y`: the tangent sample
points are `p1 = (0, 6)`, `p2 = (0, 4)`, so the raw angle is exactly `-90°`. -/
def sampleDownward : List Point :=
  [(0, 10), (0, 9), (0, 8), (0, 7), (0, 6), (0, 5), (0, 4), (0, 3), (0, 2), (0, 1)]

/-! ### Lemmas about the label-dedup loop -/

/-- The transcription `√d < 150 ↔ d < 150²` used by `isTooClose` is exact. -/
theorem sqrt_lt_iff_sq_lt (d : ℝ) : Real.sqrt d < 150 ↔ d < 22500 := by
  rw [Real.sqrt_lt' (by norm_num : (0 : ℝ) < 150)]
  norm_num

theorem labelAux_cons_skip (posOf : Road → Point) (r : Road) (rest : List Road)
    (reg : Registry) (h : r.svgPoints.length = 0) :
    labelAux posOf (r :: rest) reg = labelAux posOf rest reg := by
  simp [labelAux, h]

theorem labelAux_cons_custom (posOf : Road → Point) (r : Road) (rest : List Road)
    (reg : Registry) (h0 : ¬r.svgPoints.length = 0) (hc : hasCustomPosition r) :
    labelAux posOf (r :: rest) reg =
      ((r, posOf r) :: (labelAux posOf rest reg).1, (labelAux posOf rest reg).2) := by
  simp [labelAux, h0, hc]

theorem labelAux_cons_close (posOf : Road → Point) (r : Road) (rest : List Road)
    (reg : Registry) (h0 : ¬r.svgPoints.length = 0) (hc : ¬hasCustomPosition r)
    (ht : isTooClose reg r.name (posOf r) = true) :
    labelAux posOf (r :: rest) reg = labelAux posOf rest reg := by
  simp [labelAux, h0, hc, ht]

theorem labelAux_cons_place (posOf : Road → Point) (r : Road) (rest : List Road)
    (reg : Registry) (h0 : ¬r.svgPoints.length = 0) (hc : ¬hasCustomPosition r)
    (ht : ¬isTooClose reg r.name (posOf r) = true) :
    labelAux posOf (r :: rest) reg =
      ((r, posOf r) :: (labelAux posOf rest ((r.name, posOf r) :: reg)).1,
       (labelAux posOf rest ((r.name, posOf r) :: reg)).2) := by
  simp [labelAux, h0, hc, ht]

/-- Processing a concatenation processes the first block, then the second
starting from the registry the first block produced. -/
theorem labelAux_append (posOf : Road → Point) (l1 l2 : List Road) (reg : Registry) :
    labelAux posOf (l1 ++ l2) reg =
      ((labelAux posOf l1 reg).1 ++ (labelAux posOf l2 (labelAux posOf l1 reg).2).1,
       (labelAux posOf l2 (labelAux posOf l1 reg).2).2) := by
  induction l1 generalizing reg with
  | nil => simp [labelAux]
  | cons r rest ih =>
    by_cases h0 : r.svgPoints.length = 0
    · rw [List.cons_append, labelAux_cons_skip _ _ _ _ h0, labelAux_cons_skip _ _ _ _ h0, ih]
    · by_cases hc : hasCustomPosition r
      · rw [List.cons_append, labelAux_cons_custom _ _ _ _ h0 hc,
          labelAux_cons_custom _ _ _ _ h0 hc, ih]
        simp
      · by_cases ht : isTooClose reg r.name (posOf r) = true
        · rw [List.cons_append, labelAux_cons_close _ _ _ _ h0 hc ht,
            labelAux_cons_close _ _ _ _ h0 hc ht, ih]
        · rw [List.cons_append, labelAux_cons_place _ _ _ _ h0 hc ht,
            labelAux_cons_place _ _ _ _ h0 hc ht, ih]
          simp

theorem distSq_flip (m : ℚ) (p q : Point) :
    distSq (flipPoint m p) (flipPoint m q) = distSq p q := by
  simp only [distSq, flipPoint]
  ring

/-- The Y-mirror is an isometry, so the DXF proximity check over mirrored
registered positions agrees with the drawing-space check. -/
theorem isTooClose_flip (m : ℚ) (reg : Registry) (name : String) (p : Point) :
    isTooClose (reg.map fun e => (e.1, flipPoint m e.2)) name (flipPoint m p) =
      isTooClose reg name p := by
  simp only [isTooClose, List.any_map]
  congr 1
  funext e
  simp [Function.comp, distSq_flip]

/-- The DXF label position is exactly the Y-mirror of the drawing-space
(SVG) label position. -/
theorem dxfLabelPos_eq_flip (m : ℚ) (r : Road) :
    dxfLabelPos m r = flipPoint m (svgLabelPos r) := by
  unfold dxfLabelPos svgLabelPos flipPoint
  apply Prod.ext <;> dsimp <;> ring

/-- The DXF label loop over a mirrored registry is the mirrored image of the
drawing-space (SVG) label loop: the same labels are emitted (and suppressed)
in the same order, with all positions mirrored. -/
theorem labelAux_flip (m : ℚ) (l : List Road) (reg : Registry) :
    labelAux (dxfLabelPos m) l (reg.map fun e => (e.1, flipPoint m e.2)) =
      ((labelAux svgLabelPos l reg).1.map fun rp => (rp.1, flipPoint m rp.2),
       (labelAux svgLabelPos l reg).2.map fun e => (e.1, flipPoint m e.2)) := by
  induction l generalizing reg with
  | nil => simp [labelAux]
  | cons r rest ih =>
    by_cases h0 : r.svgPoints.length = 0
    · rw [labelAux_cons_skip _ _ _ _ h0, labelAux_cons_skip _ _ _ _ h0, ih]
    · by_cases hc : hasCustomPosition r
      · rw [labelAux_cons_custom _ _ _ _ h0 hc, labelAux_cons_custom _ _ _ _ h0 hc, ih,
          dxfLabelPos_eq_flip]
        simp
      · by_cases ht : isTooClose reg r.name (svgLabelPos r) = true
        · have ht' : isTooClose (reg.map fun e => (e.1, flipPoint m e.2)) r.name
              (dxfLabelPos m r) = true := by
            rw [dxfLabelPos_eq_flip, isTooClose_flip]; exact ht
          rw [labelAux_cons_close _ _ _ _ h0 hc ht', labelAux_cons_close _ _ _ _ h0 hc ht, ih]
        · have ht' : ¬isTooClose (reg.map fun e => (e.1, flipPoint m e.2)) r.name
              (dxfLabelPos m r) = true := by
            rw [dxfLabelPos_eq_flip, isTooClose_flip]; exact ht
          rw [labelAux_cons_place _ _ _ _ h0 hc ht', labelAux_cons_place _ _ _ _ h0 hc ht]
          rw [dxfLabelPos_eq_flip]
          have : ((r.name, flipPoint m (svgLabelPos r)) ::
              reg.map fun e => (e.1, flipPoint m e.2)) =
              (((r.name, svgLabelPos r) :: reg).map fun e => (e.1, flipPoint m e.2)) := by
            simp
          rw [this, ih]
          simp

/-- Lemma: `List.orderedInsert` only inspects the relation on the inserted element
and the list elements. -/
theorem orderedInsert_congr (r s : Road → Road → Prop)
    [DecidableRel r] [DecidableRel s] (a : Road) (l : List Road)
    (h : ∀ b ∈ l, r a b ↔ s a b) :
    List.orderedInsert r a l = List.orderedInsert s a l := by
  induction l with
  | nil => rfl
  | cons b l ih =>
    by_cases hr : r a b
    · rw [List.orderedInsert, List.orderedInsert, if_pos hr,
        if_pos ((h b (List.mem_cons_self b l)).mp hr)]
    · rw [List.orderedInsert, List.orderedInsert, if_neg hr,
        if_neg (fun hs => hr ((h b (List.mem_cons_self b l)).mpr hs)),
        ih (fun c hc => h c (List.mem_cons_of_mem b hc))]

/-- Two sort relations that agree on the elements of `l` sort `l`
identically. -/
theorem insertionSort_congr (r s : Road → Road → Prop)
    [DecidableRel r] [DecidableRel s] (l : List Road)
    (h : ∀ a ∈ l, ∀ b ∈ l, (r a b ↔ s a b)) :
    List.insertionSort r l = List.insertionSort s l := by
  induction l with
  | nil => rfl
  | cons a l ih =>
    rw [List.insertionSort, List.insertionSort,
      ih (fun x hx y hy => h x (List.mem_cons_of_mem a hx) y (List.mem_cons_of_mem a hy))]
    exact orderedInsert_congr r s a _ fun b hb =>
      h a (List.mem_cons_self a l) b
        (List.mem_cons_of_mem a ((List.mem_insertionSort s).mp hb))

end VicinityMap

open VicinityMap

/-- C2: for every point `p`, non-degenerate bounds (`east ≠ west`,
`north ≠ south`) and positive drawing dimensions, the inverse transform undoes
the forward transform exactly (exact arithmetic reading):
`transformToGeoCoords (transformToSVGCoords p b w h) b w h = p`. -/
theorem c2_roundtrip (p : Point) (b : Bounds) (w h : ℚ)
    (hew : b.east ≠ b.west) (hns : b.north ≠ b.south)
    (hw : 0 < w) (hh : 0 < h) :
    transformToGeoCoords (transformToSVGCoords p b w h) b w h = p := by
  obtain ⟨x, y⟩ := p
  have hbw : b.east - b.west ≠ 0 := sub_ne_zero.mpr hew
  have hbh : b.north - b.south ≠ 0 := sub_ne_zero.mpr hns
  have hw0 : w ≠ 0 := ne_of_gt hw
  have hh0 : h ≠ 0 := ne_of_gt hh
  unfold transformToGeoCoords transformToSVGCoords
  apply Prod.ext <;> dsimp only <;> field_simp

/-- Witness for `c2_roundtrip` at a concrete input. -/
theorem c2_roundtrip_witness :
    (10 : ℚ) ≠ 0 ∧ (10 : ℚ) ≠ 0 ∧ (0 : ℚ) < 800 ∧ (0 : ℚ) < 600 ∧
    transformToGeoCoords
      (transformToSVGCoords (1, 1) ⟨0, 0, 10, 10⟩ 800 600) ⟨0, 0, 10, 10⟩ 800 600
      = (1, 1) :=
  ⟨by norm_num, by norm_num, by norm_num, by norm_num,
    c2_roundtrip (1, 1) ⟨0, 0, 10, 10⟩ 800 600 (by norm_num) (by norm_num)
      (by norm_num) (by norm_num)⟩

namespace VicinityMap

theorem not_custom_offsets (r : Road) (h : ¬hasCustomPosition r) :
    offsetX r = 0 ∧ offsetY r = 0 := by
  unfold hasCustomPosition at h
  push_neg at h
  exact h

theorem svgLabelPos_of_not_custom (r : Road) (h : ¬hasCustomPosition r) :
    svgLabelPos r = midAnchor r.svgPoints := by
  obtain ⟨hx, hy⟩ := not_custom_offsets r h
  unfold svgLabelPos
  rw [hx, hy, add_zero, add_zero]

theorem isTooClose_nil (n : String) (p : Point) : isTooClose [] n p = false := rfl

/-- Placing two same-named non-custom labels starting from an empty
registry: the second is suppressed exactly when it lies within 150 units of
the first. -/
theorem labelAux_pair (posOf : Road → Point) (x y : Road)
    (hx : x.svgPoints.length ≠ 0) (hy : y.svgPoints.length ≠ 0)
    (hcx : ¬hasCustomPosition x) (hcy : ¬hasCustomPosition y)
    (hn : x.name = y.name) :
    (labelAux posOf [x, y] []).1 =
      if distSq (posOf x) (posOf y) < 22500
      then [(x, posOf x)] else [(x, posOf x), (y, posOf y)] := by
  rw [labelAux_cons_place _ _ _ _ hx hcx (by simp [isTooClose])]
  have hy' : ¬(y.svgPoints = []) := by simpa using hy
  by_cases hd : distSq (posOf x) (posOf y) < 22500
  · have hclose : isTooClose [(x.name, posOf x)] y.name (posOf y) = true := by
      simp [isTooClose, hn, hd]
    rw [if_pos hd]
    simp [labelAux, hy', hcy, hclose]
  · have hfar : ¬isTooClose [(x.name, posOf x)] y.name (posOf y) = true := by
      simp [isTooClose, hn, hd]
    rw [if_neg hd]
    simp [labelAux, hy', hcy, hfar]

end VicinityMap

/-- C3: a label is custom-positioned exactly when its `labelOffset` is
present and non-zero in at least one axis (absent or `(0,0)` behaves as no
custom position); in the label loop a custom-positioned label with nonempty
geometry is always emitted, never suppressed, and leaves the registry
untouched, so every other label is placed or suppressed exactly as if the
custom-positioned one were absent (third conjunct: the same run without it). -/
theorem c3_custom_exemption :
    (∀ r : Road, hasCustomPosition r ↔
      ∃ off, r.labelOffset = some off ∧ (off.1 ≠ 0 ∨ off.2 ≠ 0)) ∧
    (∀ (posOf : Road → Point) (l1 l2 : List Road) (reg : Registry) (r : Road),
      hasCustomPosition r → r.svgPoints.length ≠ 0 →
      labelAux posOf (l1 ++ r :: l2) reg =
        ((labelAux posOf l1 reg).1 ++ (r, posOf r) ::
          (labelAux posOf l2 (labelAux posOf l1 reg).2).1,
         (labelAux posOf l2 (labelAux posOf l1 reg).2).2)) ∧
    (∀ (posOf : Road → Point) (l1 l2 : List Road) (reg : Registry),
      labelAux posOf (l1 ++ l2) reg =
        ((labelAux posOf l1 reg).1 ++ (labelAux posOf l2 (labelAux posOf l1 reg).2).1,
         (labelAux posOf l2 (labelAux posOf l1 reg).2).2)) := by
  refine ⟨fun r => ?_, fun posOf l1 l2 reg r hc h0 => ?_, labelAux_append⟩
  · unfold hasCustomPosition offsetX offsetY
    cases h : r.labelOffset with
    | none => simp
    | some off => simp
  · rw [labelAux_append, labelAux_cons_custom _ _ _ _ h0 hc]

/-- Witness for `c3_custom_exemption`: the custom-positioned `sampleCustom`
is placed even though it shares its name with an already-registered label
and leaves the registry unchanged. -/
theorem c3_custom_exemption_witness :
    labelAux svgLabelPos ([] ++ sampleCustom :: []) [("Main St", (5, 0))] =
      ((labelAux svgLabelPos [] [("Main St", (5, 0))]).1 ++ (sampleCustom, svgLabelPos sampleCustom) ::
        (labelAux svgLabelPos []
          (labelAux svgLabelPos [] [("Main St", (5, 0))]).2).1,
       (labelAux svgLabelPos []
          (labelAux svgLabelPos [] [("Main St", (5, 0))]).2).2) :=
  c3_custom_exemption.2.1 svgLabelPos [] [] [("Main St", (5, 0))] sampleCustom
    (by norm_num [hasCustomPosition, offsetX, sampleCustom])
    (by norm_num [sampleCustom])

/-- C4: for exactly two same-named visible features with `showName` and no
custom offset, with anchors the midpoint samples of their geometry: if the
anchors are closer than 150 drawing units (squared distance `< 22500`),
exactly the higher-priority one (the one the DXF comparator sorts first) is
placed and the other is suppressed; at squared distance `≥ 22500` both are
placed.  Stated on the DXF backend; its mirrored positions preserve the
drawing-space distances. -/
theorem c4_dedup_radius (a b : Road) (midY : ℚ)
    (hav : a.visible = true) (hbv : b.visible = true)
    (hsa : a.showName = true) (hsb : b.showName = true)
    (hname : a.name = b.name) (hname0 : b.name ≠ "")
    (hca : ¬hasCustomPosition a) (hcb : ¬hasCustomPosition b)
    (hpa : a.svgPoints.length ≠ 0) (hpb : b.svgPoints.length ≠ 0) :
    (distSq (midAnchor a.svgPoints) (midAnchor b.svgPoints) < 22500 →
      (dxfRoadLabels midY [a, b]).map Prod.fst =
        [if dxfLabelBefore a b then a else b]) ∧
    (22500 ≤ distSq (midAnchor a.svgPoints) (midAnchor b.svgPoints) →
      (dxfRoadLabels midY [a, b]).map Prod.fst =
        if dxfLabelBefore a b then [a, b] else [b, a]) := by
  have hdist : ∀ x y : Road, ¬hasCustomPosition x → ¬hasCustomPosition y →
      distSq (dxfLabelPos midY x) (dxfLabelPos midY y) =
        distSq (midAnchor x.svgPoints) (midAnchor y.svgPoints) := by
    intro x y hx hy
    rw [dxfLabelPos_eq_flip, dxfLabelPos_eq_flip, distSq_flip,
      svgLabelPos_of_not_custom x hx, svgLabelPos_of_not_custom y hy]
  have hsorted : dxfSortedNamedRoads [a, b] =
      if dxfLabelBefore a b then [a, b] else [b, a] := by
    have hfa : (a.name != "") = true := by
      rw [hname]; exact bne_iff_ne.mpr hname0
    have hfb : (b.name != "") = true := by
      exact bne_iff_ne.mpr hname0
    unfold dxfSortedNamedRoads
    rw [List.filter_cons, List.filter_cons]
    simp only [hav, hbv, hsa, hsb, hfa, hfb, Bool.and_self, Bool.true_and,
      if_pos, List.filter_nil]
    by_cases hle : dxfLabelBefore a b
    · simp [List.insertionSort, List.orderedInsert, hle]
    · simp [List.insertionSort, List.orderedInsert, hle]
  have hsym : distSq (midAnchor b.svgPoints) (midAnchor a.svgPoints) =
      distSq (midAnchor a.svgPoints) (midAnchor b.svgPoints) := by
    unfold distSq; ring
  constructor
  · intro hd
    unfold dxfRoadLabels
    rw [hsorted]
    by_cases hle : dxfLabelBefore a b
    · rw [if_pos hle, dxfLabelAux,
        labelAux_pair _ a b hpa hpb hca hcb hname,
        if_pos (by rw [hdist a b hca hcb]; exact hd)]
      simp [hle]
    · rw [if_neg hle, dxfLabelAux,
        labelAux_pair _ b a hpb hpa hcb hca hname.symm,
        if_pos (by rw [hdist b a hcb hca, hsym]; exact hd)]
      simp [hle]
  · intro hd
    unfold dxfRoadLabels
    rw [hsorted]
    by_cases hle : dxfLabelBefore a b
    · rw [if_pos hle, dxfLabelAux,
        labelAux_pair _ a b hpa hpb hca hcb hname,
        if_neg (by rw [hdist a b hca hcb]; exact not_lt.mpr hd)]
      simp
    · rw [if_neg hle, dxfLabelAux,
        labelAux_pair _ b a hpb hpa hcb hca hname.symm,
        if_neg (by rw [hdist b a hcb hca, hsym]; exact not_lt.mpr hd)]
      simp

/-- Witness for `c4_dedup_radius`: `sampleRes` and `sampleMot` lie 2600
(squared) apart, so exactly the motorway label is placed. -/
theorem c4_dedup_radius_witness :
    distSq (midAnchor sampleRes.svgPoints) (midAnchor sampleMot.svgPoints) < 22500 ∧
    (dxfRoadLabels 25 [sampleRes, sampleMot]).map Prod.fst =
      [if dxfLabelBefore sampleRes sampleMot then sampleRes else sampleMot] := by
  have h := c4_dedup_radius sampleRes sampleMot 25 rfl rfl rfl rfl rfl
    (by decide)
    (by norm_num [hasCustomPosition, offsetX, offsetY, sampleRes])
    (by norm_num [hasCustomPosition, offsetX, offsetY, sampleMot])
    (by norm_num [sampleRes]) (by norm_num [sampleMot])
  have hd : distSq (midAnchor sampleRes.svgPoints) (midAnchor sampleMot.svgPoints) < 22500 := by
    norm_num [distSq, midAnchor, sampleRes, sampleMot]
  exact ⟨hd, h.1 hd⟩

/-- C6: label placement processes features in the order of a deterministic
priority key — the output of the sort is sorted by (category rank, then
descending point count) and is a permutation of the filtered input; the rank
table is motorway 1, trunk 2, primary 3, secondary 4, tertiary 5,
residential 6, unclassified 7, anything else 8; and in the concrete
scenario (residential with 5 points vs. motorway with 2 points, same name,
anchors within the dedup radius) the motorway label is placed and the
residential label suppressed. -/
theorem c6_priority_order :
    (∀ roads : List Road,
      List.Sorted svgLabelBefore (svgSortedNamedRoads roads) ∧
      (svgSortedNamedRoads roads).Perm
        (roads.filter fun r => (r.name != "") && r.showName)) ∧
    typeOrder "motorway" = 1 ∧ typeOrder "trunk" = 2 ∧ typeOrder "primary" = 3 ∧
    typeOrder "secondary" = 4 ∧ typeOrder "tertiary" = 5 ∧
    typeOrder "residential" = 6 ∧ typeOrder "unclassified" = 7 ∧
    ((svgRoadLabels [sampleRes, sampleMot]).map Prod.fst = [sampleMot]) ∧
    (∀ t : String, t ≠ "motorway" → t ≠ "trunk" → t ≠ "primary" →
      t ≠ "secondary" → t ≠ "tertiary" → t ≠ "residential" →
      t ≠ "unclassified" → typeOrder t = 8) := by
  refine ⟨fun roads => ⟨List.sorted_insertionSort _ _, List.perm_insertionSort _ _⟩,
    rfl, rfl, rfl, rfl, rfl, rfl, rfl, ?_, ?_⟩
  · norm_num [svgRoadLabels, svgSortedNamedRoads, svgLabelAux, labelAux, svgLabelPos,
      midAnchor, offsetX, offsetY, hasCustomPosition, isTooClose, distSq,
      sampleRes, sampleMot, List.insertionSort, List.orderedInsert,
      svgLabelBefore, roadRank, typeOrder]
  · intro t h1 h2 h3 h4 h5 h6 h7
    simp [typeOrder, h1, h2, h3, h4, h5, h6, h7]

/-- Witness for `c6_priority_order`: the fallback rank of a type outside the
table. -/
theorem c6_priority_order_witness : typeOrder "service" = 8 :=
  c6_priority_order.2.2.2.2.2.2.2.2.2 "service" (by decide) (by decide) (by decide)
    (by decide) (by decide) (by decide) (by decide)

/-- C1 counterexample: the three backends do *not* agree on the suppressed
set, because each backend re-derives (or skips) suppression itself.  For the
snapshot `[sampleRes, sampleMot]` (both visible, same name, anchors within
150 units) the interactive preview emits both labels while the SVG exporter
suppresses the residential one. -/
theorem c1_backend_agreement_cex :
    sampleRes.visible = true ∧ sampleRes.showName = true ∧
    (previewLabels [sampleRes, sampleMot]).map Prod.fst = [sampleRes, sampleMot] ∧
    (svgRoadLabels [sampleRes, sampleMot]).map Prod.fst = [sampleMot] := by
  refine ⟨rfl, rfl, ?_, ?_⟩
  · simp +decide [previewLabels, sampleRes, sampleMot]
  · norm_num [svgRoadLabels, svgSortedNamedRoads, svgLabelAux, labelAux, svgLabelPos,
      midAnchor, offsetX, offsetY, hasCustomPosition, isTooClose, distSq,
      sampleRes, sampleMot, List.insertionSort, List.orderedInsert,
      svgLabelBefore, roadRank, typeOrder]

/-- C1 amended: suppression is re-derived per backend rather than decided
once upstream.  The SVG and DXF exporters agree on the suppressed set (and
its order) whenever every feature of the snapshot is visible and has
matching `points`/`svgPoints` lengths — the DXF dedup runs on Y-mirrored
anchors, and mirroring preserves distances —, while the interactive preview
performs no suppression at all: it renders exactly every visible, named,
`showName` feature with nonempty geometry.  (The bounding-box hypothesis
excludes the corner where the JS `midY` would be `NaN`.) -/
theorem c1_backend_agreement_amended (roads : List Road) (midY : ℚ)
    (hvis : ∀ r ∈ roads, r.visible = true)
    (hlen : ∀ r ∈ roads, r.points.length = r.svgPoints.length)
    (hbox : dxfBBoxYs roads ≠ []) :
    (dxfRoadLabels midY roads).map Prod.fst = (svgRoadLabels roads).map Prod.fst ∧
    previewLabels roads = roads.filterMap (fun r =>
      if r.visible && r.showName && (r.name != "") && !r.svgPoints.isEmpty
      then some (r, svgLabelPos r) else none) := by
  refine ⟨?_, rfl⟩
  have hfilter : roads.filter (fun r => r.visible && r.showName && (r.name != "")) =
      roads.filter (fun r => (r.name != "") && r.showName) := by
    apply List.filter_congr
    intro r hr
    rw [hvis r hr]
    simp [Bool.and_comm]
  have hsort : dxfSortedNamedRoads roads = svgSortedNamedRoads roads := by
    unfold dxfSortedNamedRoads svgSortedNamedRoads
    rw [hfilter]
    apply insertionSort_congr
    intro a ha b hb
    have ha' := (List.mem_filter.mp ha).1
    have hb' := (List.mem_filter.mp hb).1
    unfold dxfLabelBefore svgLabelBefore
    rw [hlen a ha', hlen b hb']
  unfold dxfRoadLabels svgRoadLabels dxfLabelAux svgLabelAux
  rw [hsort]
  have := labelAux_flip midY (svgSortedNamedRoads roads) []
  simp only [List.map_nil] at this
  rw [this, List.map_map]
  rfl

/-- Witness for `c1_backend_agreement_amended` on a concrete all-visible
snapshot. -/
theorem c1_backend_agreement_amended_witness :
    (dxfRoadLabels 25 [sampleRes, sampleMot]).map Prod.fst =
      (svgRoadLabels [sampleRes, sampleMot]).map Prod.fst ∧
    previewLabels [sampleRes, sampleMot] = [sampleRes, sampleMot].filterMap (fun r =>
      if r.visible && r.showName && (r.name != "") && !r.svgPoints.isEmpty
      then some (r, svgLabelPos r) else none) :=
  c1_backend_agreement_amended [sampleRes, sampleMot] 25
    (by decide) (by decide) (by decide)

/-- C9 counterexample: an invisible feature is *not* excluded from every
backend.  The SVG exporter's path pass and label pass never check `visible`,
so the invisible `sampleHidden` gets both a path and a label there, while
the preview and the DXF exporter emit nothing for it. -/
theorem c9_invisible_cex :
    sampleHidden.visible = false ∧
    svgPathRoads [sampleHidden] = [sampleHidden] ∧
    (svgRoadLabels [sampleHidden]).map Prod.fst = [sampleHidden] ∧
    previewPathRoads [sampleHidden] = [] ∧
    previewLabels [sampleHidden] = [] ∧
    dxfLineRoads [sampleHidden] = [] ∧
    dxfRoadLabels 0 [sampleHidden] = [] := by
  refine ⟨rfl, by decide, ?_, by decide, by decide, by decide, ?_⟩
  · norm_num [svgRoadLabels, svgSortedNamedRoads, svgLabelAux, labelAux, svgLabelPos,
      midAnchor, offsetX, offsetY, hasCustomPosition, isTooClose,
      sampleHidden, List.insertionSort, List.orderedInsert]
  · norm_num [dxfRoadLabels, dxfSortedNamedRoads, dxfLabelAux, labelAux, sampleHidden,
      List.insertionSort, List.orderedInsert]

/-- C9 amended: the interactive preview and the DXF exporter exclude an
invisible feature completely — no paths, no label, no effect on any other
feature's label (removing it from the snapshot changes nothing) — whereas
the SVG exporter does not itself filter on `visible` (see the
counterexample); in the application its callers pre-filter to visible
features. -/
theorem c9_invisible_amended (l1 l2 : List Road) (r : Road) (midY : ℚ)
    (hv : r.visible = false) :
    previewPathRoads (l1 ++ r :: l2) = previewPathRoads (l1 ++ l2) ∧
    previewLabels (l1 ++ r :: l2) = previewLabels (l1 ++ l2) ∧
    dxfLineRoads (l1 ++ r :: l2) = dxfLineRoads (l1 ++ l2) ∧
    dxfBBoxYs (l1 ++ r :: l2) = dxfBBoxYs (l1 ++ l2) ∧
    dxfRoadLabels midY (l1 ++ r :: l2) = dxfRoadLabels midY (l1 ++ l2) := by
  have hline : dxfLineRoads (l1 ++ r :: l2) = dxfLineRoads (l1 ++ l2) := by
    unfold dxfLineRoads
    rw [List.filter_append, List.filter_append, List.filter_cons]
    simp [hv]
  refine ⟨?_, ?_, hline, ?_, ?_⟩
  · unfold previewPathRoads
    rw [List.filter_append, List.filter_append, List.filter_cons]
    simp [hv]
  · unfold previewLabels
    rw [List.filterMap_append, List.filterMap_append, List.filterMap_cons]
    simp [hv]
  · unfold dxfBBoxYs
    rw [hline]
  · unfold dxfRoadLabels dxfSortedNamedRoads
    rw [List.filter_append, List.filter_append, List.filter_cons]
    simp [hv]

/-- Witness for `c9_invisible_amended` at a concrete snapshot. -/
theorem c9_invisible_amended_witness :
    previewPathRoads ([] ++ sampleHidden :: [sampleRes]) = previewPathRoads ([] ++ [sampleRes]) ∧
    previewLabels ([] ++ sampleHidden :: [sampleRes]) = previewLabels ([] ++ [sampleRes]) ∧
    dxfLineRoads ([] ++ sampleHidden :: [sampleRes]) = dxfLineRoads ([] ++ [sampleRes]) ∧
    dxfBBoxYs ([] ++ sampleHidden :: [sampleRes]) = dxfBBoxYs ([] ++ [sampleRes]) ∧
    dxfRoadLabels 0 ([] ++ sampleHidden :: [sampleRes]) = dxfRoadLabels 0 ([] ++ [sampleRes]) :=
  c9_invisible_amended [] [sampleRes] sampleHidden 0 rfl

/-- C10: `UPDATE_ROAD_FONT_SIZE` with any delta maps the targeted road's
font size to `max(6, min(20, currentSize + delta))` — where `currentSize` is
the stored size, defaulting to `10` when absent — leaves every other field
of the targeted road and every other road unchanged, and the clamped result
always lies in `[6, 20]`. -/
theorem c10_font_clamp (roads : List Road) (i : String) (delta : ℚ) :
    List.Forall₂ (fun road road' =>
      (road.id ≠ i → road' = road) ∧
      (road.id = i →
        road'.fontSize = some (max 6 (min 20 (fontSizeOf road + delta))) ∧
        6 ≤ max 6 (min 20 (fontSizeOf road + delta)) ∧
        max 6 (min 20 (fontSizeOf road + delta)) ≤ 20 ∧
        road'.id = road.id ∧ road'.name = road.name ∧ road'.type = road.type ∧
        road'.featureType = road.featureType ∧ road'.visible = road.visible ∧
        road'.showName = road.showName ∧ road'.points = road.points ∧
        road'.svgPoints = road.svgPoints ∧ road'.labelOffset = road.labelOffset ∧
        road'.customAngle = road.customAngle))
      roads (updateRoadFontSize roads i delta) ∧
    (∀ r : Road, r.fontSize = none → fontSizeOf r = 10) := by
  constructor
  · unfold updateRoadFontSize
    induction roads with
    | nil => exact List.Forall₂.nil
    | cons road rest ih =>
      rw [List.map_cons]
      refine List.Forall₂.cons ⟨?_, ?_⟩ ih
      · intro hne
        simp [hne]
      · intro heq
        rw [if_pos heq]
        exact ⟨rfl, le_max_left _ _, max_le (by norm_num) (min_le_left _ _),
          rfl, rfl, rfl, rfl, rfl, rfl, rfl, rfl, rfl, rfl⟩
  · intro r h
    simp [fontSizeOf, h]

/-- Witness for `c10_font_clamp`: the default font size when absent. -/
theorem c10_font_clamp_witness : fontSizeOf sampleRes = 10 :=
  (c10_font_clamp [] "x" 0).2 sampleRes rfl

namespace VicinityMap

theorem atan2deg_mem_Ioc (y x : ℚ) : atan2deg y x ∈ Set.Ioc (-180 : ℝ) 180 := by
  have harg := Complex.arg_mem_Ioc ((x : ℝ) + (y : ℝ) * Complex.I)
  have hpi : (0 : ℝ) < Real.pi := Real.pi_pos
  have hscale : (0 : ℝ) < 180 / Real.pi := by positivity
  unfold atan2deg
  constructor
  · have := mul_lt_mul_of_pos_right harg.1 hscale
    calc (-180 : ℝ) = -Real.pi * (180 / Real.pi) := by field_simp; ring
    _ < Complex.arg ((x : ℝ) + (y : ℝ) * Complex.I) * (180 / Real.pi) := this
    _ = Complex.arg ((x : ℝ) + (y : ℝ) * Complex.I) * 180 / Real.pi := by ring
  · have := mul_le_mul_of_nonneg_right harg.2 hscale.le
    calc Complex.arg ((x : ℝ) + (y : ℝ) * Complex.I) * 180 / Real.pi
        = Complex.arg ((x : ℝ) + (y : ℝ) * Complex.I) * (180 / Real.pi) := by ring
    _ ≤ Real.pi * (180 / Real.pi) := this
    _ = 180 := by field_simp

theorem rawTangent_sampleLeftward : rawTangentAngle sampleLeftward = 180 := by
  have hstep : rawTangentAngle sampleLeftward = atan2deg 0 (-2) := by
    norm_num [rawTangentAngle, sampleLeftward]
  rw [hstep]
  unfold atan2deg
  have hz : ((0 : ℚ) : ℝ) = 0 := by norm_num
  have hx : (((-2 : ℚ) : ℝ) : ℂ) + ((0 : ℚ) : ℝ) * Complex.I = (((-2 : ℝ) : ℂ)) := by
    push_cast
    ring
  rw [hx, Complex.arg_ofReal_of_neg (by norm_num)]
  field_simp

theorem rawTangent_sampleDownward : rawTangentAngle sampleDownward = -90 := by
  have hstep : rawTangentAngle sampleDownward = atan2deg (-2) 0 := by
    norm_num [rawTangentAngle, sampleDownward]
  rw [hstep]
  unfold atan2deg
  have hx : (((0 : ℚ) : ℝ) : ℂ) + (((-2 : ℚ) : ℝ)) * Complex.I = (-2 : ℝ) * Complex.I := by
    push_cast
    ring
  rw [hx]
  have harg : Complex.arg ((-2 : ℝ) * Complex.I) = -(Real.pi / 2) := by
    rw [Complex.arg_eq_neg_pi_div_two_iff]
    constructor <;> simp
  rw [harg]
  field_simp
  ring

end VicinityMap

namespace VicinityMap

theorem rawTangentAngle_mem_Ioc (pts : List Point) :
    rawTangentAngle pts ∈ Set.Ioc (-180 : ℝ) 180 := by
  unfold rawTangentAngle
  exact atan2deg_mem_Ioc _ _

end VicinityMap

theorem c5_cex :
    2 ≤ sampleLeftward.length ∧ getCalculatedAngle sampleLeftward = 360 ∧
    getCalculatedAngle sampleLeftward ∉ Set.Ioc (-90 : ℝ) 90 ∧
    2 ≤ sampleDownward.length ∧ getCalculatedAngle sampleDownward = -90 ∧
    getCalculatedAngle sampleDownward ∉ Set.Ioc (-90 : ℝ) 90 := by
  have hL : getCalculatedAngle sampleLeftward = 360 := by
    unfold getCalculatedAngle
    rw [if_neg (by norm_num [sampleLeftward]), rawTangent_sampleLeftward]
    unfold normalizeAngle
    rw [if_pos (Or.inl (by norm_num))]
    norm_num
  have hD : getCalculatedAngle sampleDownward = -90 := by
    unfold getCalculatedAngle
    rw [if_neg (by norm_num [sampleDownward]), rawTangent_sampleDownward]
    unfold normalizeAngle
    rw [if_neg (by push_neg; norm_num)]
  refine ⟨by norm_num [sampleLeftward], hL, ?_, by norm_num [sampleDownward], hD, ?_⟩
  · rw [hL]; simp [Set.mem_Ioc]; norm_num
  · rw [hD]; simp [Set.mem_Ioc]

theorem c5_amended (pts : List Point) (h : 2 ≤ pts.length) :
    getCalculatedAngle pts ∈ Set.Icc (-90 : ℝ) 90 ∪ Set.Ioc (270 : ℝ) 360 := by
  have hr := rawTangentAngle_mem_Ioc pts
  unfold getCalculatedAngle
  rw [if_neg (by omega)]
  unfold normalizeAngle
  by_cases hc : 90 < rawTangentAngle pts ∨ rawTangentAngle pts < -90
  · rw [if_pos hc]
    rcases hc with h1 | h1
    · right
      exact ⟨by linarith, by linarith [hr.2]⟩
    · left
      exact ⟨by linarith [hr.1], by linarith⟩
  · rw [if_neg hc]
    rcases not_or.mp hc with ⟨h1, h2⟩
    left
    exact ⟨by linarith [not_lt.mp h2], not_lt.mp h1⟩

theorem c5_amended_witness :
    2 ≤ sampleDownward.length ∧
    getCalculatedAngle sampleDownward ∈ Set.Icc (-90 : ℝ) 90 ∪ Set.Ioc (270 : ℝ) 360 :=
  ⟨by norm_num [sampleDownward], c5_amended sampleDownward (by norm_num [sampleDownward])⟩

/-- C8 counterexample: with degenerate bounds (`east == west`) neither
transform signals an error.  `transformToSVGCoords` returns a value whose x
component is `Infinity`, and `transformToGeoCoords` even returns an ordinary
finite point. -/
theorem c8_cex :
    (Bounds.mk 0 0 0 10).east = (Bounds.mk 0 0 0 10).west ∧
    transformToSVGCoordsJS (5, 5) (Bounds.mk 0 0 0 10) 800 600 =
      (JSNum.inf, JSNum.fin 300) ∧
    transformToGeoCoordsJS (5, 5) (Bounds.mk 0 0 0 10) 800 600 =
      (JSNum.fin 0, JSNum.fin (119 / 12)) := by
  refine ⟨rfl, ?_, ?_⟩
  · norm_num [transformToSVGCoordsJS, JSNum.div, JSNum.mul, JSNum.sub]
  · norm_num [transformToGeoCoordsJS, JSNum.div, JSNum.add]

/-- C8 amended: the transforms perform an unguarded division by zero on
degenerate bounds instead of failing: the forward transform's x component is
non-finite (`±Infinity` or `NaN`), while the inverse transform returns an
ordinary finite point (`x / Infinity` is `0` in JS); rejecting degenerate
bounds is the caller's responsibility. -/
theorem c8_amended (p : Point) (b : Bounds) (w h : ℚ)
    (he : b.east = b.west) (hn : b.north ≠ b.south) (hw : 0 < w) (hh : 0 < h) :
    (transformToSVGCoordsJS p b w h).1.isFinite = false ∧
    (transformToGeoCoordsJS p b w h).1.isFinite = true ∧
    (transformToGeoCoordsJS p b w h).2.isFinite = true := by
  have h0 : b.east - b.west = 0 := by rw [he]; ring
  have hn' : b.north - b.south ≠ 0 := sub_ne_zero.mpr hn
  have hscaleY : h / (b.north - b.south) ≠ 0 := div_ne_zero (ne_of_gt hh) hn'
  refine ⟨?_, ?_, ?_⟩
  · unfold transformToSVGCoordsJS
    simp only [h0, JSNum.div, if_pos rfl, if_pos hw]
    rcases lt_trichotomy (p.1 - b.west) 0 with hx | hx | hx
    · simp [JSNum.mul, JSNum.isFinite, not_lt.mpr hx.le, hx]
    · simp [JSNum.mul, JSNum.isFinite, hx]
    · simp [JSNum.mul, JSNum.isFinite, hx]
  · unfold transformToGeoCoordsJS
    simp only [h0, JSNum.div, if_pos rfl, if_pos hw]
    simp [JSNum.div, JSNum.add, JSNum.isFinite]
  · unfold transformToGeoCoordsJS
    simp only [JSNum.div, if_neg hn']
    simp [JSNum.div, JSNum.add, JSNum.isFinite, hn', hscaleY]

/-- Witness for `c8_amended` at a concrete degenerate input. -/
theorem c8_amended_witness :
    (transformToSVGCoordsJS (5, 5) (Bounds.mk 0 0 0 10) 800 600).1.isFinite = false ∧
    (transformToGeoCoordsJS (5, 5) (Bounds.mk 0 0 0 10) 800 600).1.isFinite = true ∧
    (transformToGeoCoordsJS (5, 5) (Bounds.mk 0 0 0 10) 800 600).2.isFinite = true :=
  c8_amended (5, 5) (Bounds.mk 0 0 0 10) 800 600 rfl (by norm_num) (by norm_num) (by norm_num)

namespace VicinityMap

/-- Lemma: a four-element list is a permutation of its two-block rotation. -/
theorem perm_four {α : Type} (w x y z : α) : ([w, x, y, z] : List α).Perm [y, z, w, x] := by
  have h : ([w, x] ++ [y, z] : List α).Perm ([y, z] ++ [w, x]) := List.perm_append_comm
  simpa using h

theorem segLength_flip (m : ℝ) (p1 p2 : RPoint) :
    segLength (flipR m p1) (flipR m p2) = segLength p1 p2 := by
  unfold segLength flipR
  congr 1
  ring

theorem flatMap_perm {α β : Type} (l : List α) (f g : α → List β)
    (h : ∀ x ∈ l, (f x).Perm (g x)) : (l.flatMap f).Perm (l.flatMap g) := by
  induction l with
  | nil => simp
  | cons a l ih =>
    simp only [List.flatMap_cons]
    exact (h a (List.mem_cons_self a l)).append
      (ih fun x hx => h x (List.mem_cons_of_mem a hx))

theorem railPointsAux_flip (m : ℝ) (p1 p2 : RPoint) (ox oy : ℝ) (n : ℕ) :
    (railPointsAux (flipR m p1) (flipR m p2) (-ox) oy n).Perm
      ((railPointsAux p1 p2 ox oy n).map (flipR m)) := by
  unfold railPointsAux
  rw [List.map_append]
  apply List.Perm.append
  · have e1 : ((flipR m p1).1 + -ox, (flipR m p1).2 + oy) =
        flipR m (p1.1 - ox, p1.2 - oy) := by
      apply Prod.ext <;> simp [flipR] <;> ring
    have e2 : ((flipR m p2).1 + -ox, (flipR m p2).2 + oy) =
        flipR m (p2.1 - ox, p2.2 - oy) := by
      apply Prod.ext <;> simp [flipR] <;> ring
    have e3 : ((flipR m p1).1 - -ox, (flipR m p1).2 - oy) =
        flipR m (p1.1 + ox, p1.2 + oy) := by
      apply Prod.ext <;> simp [flipR] <;> ring
    have e4 : ((flipR m p2).1 - -ox, (flipR m p2).2 - oy) =
        flipR m (p2.1 + ox, p2.2 + oy) := by
      apply Prod.ext <;> simp [flipR] <;> ring
    rw [List.map_cons, List.map_cons, List.map_cons, List.map_cons, List.map_nil,
      e1, e2, e3, e4]
    exact perm_four _ _ _ _
  · by_cases hn : 0 < n
    · rw [if_pos hn, apply_ite (List.map (flipR m)), if_pos hn, List.map_flatMap]
      apply flatMap_perm
      intro i _
      have t1 : ((flipR m p1).1 + (i : ℝ) / (n : ℝ) * ((flipR m p2).1 - (flipR m p1).1) + -ox * 1.2,
          (flipR m p1).2 + (i : ℝ) / (n : ℝ) * ((flipR m p2).2 - (flipR m p1).2) + oy * 1.2) =
          flipR m (p1.1 + (i : ℝ) / (n : ℝ) * (p2.1 - p1.1) - ox * 1.2,
            p1.2 + (i : ℝ) / (n : ℝ) * (p2.2 - p1.2) - oy * 1.2) := by
        apply Prod.ext <;> simp [flipR] <;> ring
      have t2 : ((flipR m p1).1 + (i : ℝ) / (n : ℝ) * ((flipR m p2).1 - (flipR m p1).1) - -ox * 1.2,
          (flipR m p1).2 + (i : ℝ) / (n : ℝ) * ((flipR m p2).2 - (flipR m p1).2) - oy * 1.2) =
          flipR m (p1.1 + (i : ℝ) / (n : ℝ) * (p2.1 - p1.1) + ox * 1.2,
            p1.2 + (i : ℝ) / (n : ℝ) * (p2.2 - p1.2) + oy * 1.2) := by
        apply Prod.ext <;> simp [flipR] <;> ring
      rw [List.map_cons, List.map_cons, List.map_nil, t1, t2]
      exact List.Perm.swap _ _ _
    · simp [hn]

theorem railPoints_flip (m : ℝ) (p1 p2 : RPoint) :
    (railPoints (flipR m p1) (flipR m p2)).Perm ((railPoints p1 p2).map (flipR m)) := by
  unfold railPoints
  rw [segLength_flip]
  by_cases hs : segLength p1 p2 < 1 / 1000
  · rw [if_pos hs, if_pos hs]
    simp
  · rw [if_neg hs, if_neg hs]
    have hox : ((flipR m p2).2 - (flipR m p1).2) / segLength p1 p2 * 2 =
        -((p2.2 - p1.2) / segLength p1 p2 * 2) := by
      simp [flipR]
      ring
    have hoy : -(((flipR m p2).1 - (flipR m p1).1) / segLength p1 p2) * 2 =
        -((p2.1 - p1.1) / segLength p1 p2) * 2 := by
      simp [flipR]
    rw [hox, hoy]
    exact railPointsAux_flip m p1 p2 _ _ _

end VicinityMap

namespace VicinityMap

theorem standaloneTexts_flip (midY : ℚ) (labels : List StandaloneLabel) :
    dxfStandaloneTexts midY labels =
      (svgStandaloneTexts labels).map fun e => (flipPoint midY e.1, -e.2) := by
  unfold dxfStandaloneTexts svgStandaloneTexts
  induction labels with
  | nil => rfl
  | cons l ls ih =>
    rw [List.filterMap_cons, List.filterMap_cons]
    by_cases hv : l.visible
    · simp [hv, flipPoint, ih]
    · simp only [hv]
      rw [if_neg (by simp), if_neg (by simp)]
      exact ih

theorem dxfLabelAngle_neg (r : Road) :
    ∃ k : ℤ, dxfLabelAngle r = -(svgLabelAngle r) + k * 360 := by
  unfold dxfLabelAngle svgLabelAngle
  cases hca : r.customAngle with
  | some a => exact ⟨0, by push_cast; ring⟩
  | none =>
    unfold getCalculatedAngle
    by_cases hl : 1 < r.svgPoints.length
    · rw [if_pos hl, if_neg (by omega)]
      have hr := rawTangentAngle_mem_Ioc r.svgPoints
      unfold normalizeAngle
      by_cases h1 : 90 < rawTangentAngle r.svgPoints
      · rw [if_pos (Or.inr (by linarith : -rawTangentAngle r.svgPoints < -90)),
          if_pos (Or.inl h1)]
        exact ⟨1, by push_cast; ring⟩
      · by_cases h2 : rawTangentAngle r.svgPoints < -90
        · rw [if_pos (Or.inl (by linarith : (90 : ℝ) < -rawTangentAngle r.svgPoints)),
            if_pos (Or.inr h2)]
          exact ⟨1, by push_cast; ring⟩
        · rw [if_neg (by push_neg; constructor <;> linarith [not_lt.mp h1, not_lt.mp h2]),
            if_neg (by push_neg; exact ⟨not_lt.mp h1, not_lt.mp h2⟩)]
          exact ⟨0, by ring⟩
    · rw [if_neg hl, if_pos (by omega)]
      exact ⟨0, by norm_num⟩

end VicinityMap

/-- C7: the DXF backend's Y-mirror is applied only after all drawing-space
computation.  (1) The emitted DXF label list is exactly the drawing-space
label-placement result (same filter, sort and dedup) with every anchor
mirrored about `midY`; (2) each DXF label anchor is the mirror of the SVG
drawing-space anchor; (3) each emitted road LINE segment is the mirror of
the corresponding drawing-space segment (Y ↦ 2·midY − Y, X unchanged);
(4) the railway expansion of a mirrored segment emits exactly the mirrored
point set (as a permutation — the two rails swap); (5) standalone DXF texts
sit at the mirrored position with negated angle; (6) each DXF text angle is
the negation of the corresponding drawing-space angle up to a multiple of
360° (the upside-down normalization). -/
theorem c7_dxf_mirror :
    (∀ (midY : ℚ) (roads : List Road),
      dxfRoadLabels midY roads =
        (labelAux svgLabelPos (dxfSortedNamedRoads roads) []).1.map
          fun rp => (rp.1, flipPoint midY rp.2)) ∧
    (∀ (midY : ℚ) (r : Road), dxfLabelPos midY r = flipPoint midY (svgLabelPos r)) ∧
    (∀ (midY : ℚ) (r : Road),
      dxfFlippedSegments midY r =
        (segmentsOf r.svgPoints).map fun s => (flipPoint midY s.1, flipPoint midY s.2)) ∧
    (∀ (m : ℝ) (p1 p2 : RPoint),
      (railPoints (flipR m p1) (flipR m p2)).Perm ((railPoints p1 p2).map (flipR m))) ∧
    (∀ (midY : ℚ) (labels : List StandaloneLabel),
      dxfStandaloneTexts midY labels =
        (svgStandaloneTexts labels).map fun e => (flipPoint midY e.1, -e.2)) ∧
    (∀ r : Road, ∃ k : ℤ, dxfLabelAngle r = -(svgLabelAngle r) + k * 360) := by
  refine ⟨?_, dxfLabelPos_eq_flip, fun _ _ => rfl, railPoints_flip,
    standaloneTexts_flip, dxfLabelAngle_neg⟩
  intro midY roads
  unfold dxfRoadLabels dxfLabelAux
  have h := labelAux_flip midY (dxfSortedNamedRoads roads) []
  rw [List.map_nil] at h
  rw [h]
